import Mathlib

/-
Verification development for the GameVerse Hub repository
(src/core/game_discovery.py and src/core/profile_manager.py).

Python strings are modelled as lists of characters; the helper functions
below reproduce the Python `str` operations the code uses (strip, lower,
startswith, substring membership, split), with ASCII case mapping.
Python floats are modelled as exact rationals, Python ints as `Int`,
Python dicts either as insertion-ordered association lists or, for the
catalog-entry dictionaries with dynamic keys, as functions
`String → Option GVal`.  File-system reads, `datetime.now()` and
`json` loading are effects: they are modelled by passing the file
contents, the current timestamp and the parsed configuration in as
explicit parameters, and `print` output is returned as an explicit list
of messages.
-/

/-- Python whitespace characters, as used by `str.strip()` and `str.split()`. -/
def pyWhite (c : Char) : Bool :=
  c = ' ' || c = '\t' || c = '\n' || c = '\x0d' || c = '\x0b' || c = '\x0c'

/-- Python `str.lstrip()` over a list of characters. -/
def pyStripL (l : List Char) : List Char := l.dropWhile pyWhite

/-- Python `str.strip()` over a list of characters: drop whitespace at both ends. -/
def pyStrip (l : List Char) : List Char := (pyStripL ((pyStripL l.reverse)).reverse)

/-- Python `str.strip(chars)` with an explicit character set, both ends. -/
def pyStripChars (cs : List Char) (l : List Char) : List Char :=
  ((l.dropWhile (fun c => cs.contains c)).reverse.dropWhile (fun c => cs.contains c)).reverse

/-- ASCII lower-casing of one character (the sources only contain ASCII). -/
def lowerC (c : Char) : Char :=
  if 'A' ≤ c ∧ c ≤ 'Z' then Char.ofNat (c.toNat + 32) else c

/-- Python `str.lower()` over a list of characters. -/
def pyLower (l : List Char) : List Char := l.map lowerC

/-- Python `str.startswith(p)`: `p` is an initial segment of `s`. -/
def startsWithL (s p : List Char) : Bool :=
  match s, p with
  | _, [] => true
  | [], _ :: _ => false
  | c :: s, d :: p => c = d && startsWithL s p

/-- Python `str.endswith(p)`: `p` is a final segment of `s`. -/
def endsWithL (s p : List Char) : Bool := startsWithL s.reverse p.reverse

/-- Python substring membership `sub in s`. -/
def isSubL (sub s : List Char) : Bool :=
  match s with
  | [] => sub.isEmpty
  | _ :: t => startsWithL s sub || isSubL sub t

/-- Index of the first occurrence of `sub` in `s`, Python `str.find` when it succeeds. -/
def findSubL (sub s : List Char) : Option Nat :=
  match s with
  | [] => if sub.isEmpty then some 0 else none
  | _ :: t => if startsWithL s sub then some 0 else (findSubL sub t).map (· + 1)

/-- Python `str.split(sep)` restricted to a one-character separator,
keeping empty fields, as in `content.split(chr(10))`. -/
def splitOnC (sep : Char) (l : List Char) : List (List Char) :=
  match l with
  | [] => [[]]
  | c :: t =>
    let r := splitOnC sep t
    if c = sep then [] :: r
    else match r with
         | [] => [[c]]
         | h :: t2 => (c :: h) :: t2

/-- The lines of a Python string, `content.split` on the newline character. -/
def pyLines (l : List Char) : List (List Char) := splitOnC '\n' l

/-- Everything after the first occurrence of `sep`, Python `s.split(sep, 1)[1]`
when `sep` occurs in `s`. -/
def afterFirst (sep : Char) (l : List Char) : List Char :=
  (l.dropWhile (fun c => c ≠ sep)).drop 1

/-- Python whitespace-run split `str.split()` (no argument): runs of
whitespace separate the words and produce no empty fields. -/
def pySplitWs (l : List Char) : List (List Char) :=
  match l with
  | [] => []
  | c :: t =>
    if pyWhite c then pySplitWs t
    else match pySplitWs t with
         | [] => [[c]]
         | h :: t2 =>
           match t with
           | [] => [[c]]
           | d :: _ => if pyWhite d then [c] :: h :: t2 else (c :: h) :: t2

/-- Python `str.title()` applied to a list of characters: each maximal run of
letters is capitalised on its first letter and lower-cased afterwards. -/
def pyTitleAux : List Char → Bool → List Char
  | [], _ => []
  | c :: t, prevAlpha =>
    if c.isAlpha then
      (if prevAlpha then lowerC c else c.toUpper) :: pyTitleAux t true
    else c :: pyTitleAux t false

/-- Python `str.title()`. -/
def pyTitle (l : List Char) : List Char := pyTitleAux l false

/-- Python `' '.join(parts)`. -/
def joinSpace (parts : List (List Char)) : List Char :=
  (parts.intersperse ([' '])).flatten

/-
Game discovery (src/core/game_discovery.py).
-/

/-- The three-double-quote delimiter of a Python docstring. -/
def dquote3 : List Char := [('"'), ('"'), ('"')]

/-- The three-single-quote delimiter of a Python docstring. -/
def squote3 : List Char := [Char.ofNat 39, Char.ofNat 39, Char.ofNat 39]

/-- Title-comment loop of `GameDiscovery._extract_title` (game_discovery.py
lines 80-87), over the already truncated list of lines: strip each line; on a
comment line whose lower-casing mentions title or name, return the stripped
text after the first colon, else after the first dash; a matching comment with
neither separator does not stop the scan. -/
def scanTitleComment : List (List Char) → Option (List Char)
  | [] => none
  | l :: rest =>
    let line := pyStrip l
    if startsWithL line [('#')] &&
       (isSubL (("title").toList) (pyLower line) || isSubL (("name").toList) (pyLower line)) then
      if line.contains ':' then some (pyStrip (afterFirst ':' line))
      else if line.contains '-' then some (pyStrip (afterFirst '-' line))
      else scanTitleComment rest
    else scanTitleComment rest

/-- TITLE-variable fallback of `_extract_title` (lines 90-98): find the first
occurrence of the text TITLE, take at most 100 characters from there and cut
at the end of that line; when that fragment carries an equals sign, return the
right-hand side stripped of whitespace and then of quote characters. -/
def titleVarL (content : List Char) : Option (List Char) :=
  if isSubL (("TITLE").toList) content then
    let start := (findSubL (("TITLE").toList) content).getD 0
    let line := ((content.drop start).take 100).takeWhile (fun c => c ≠ '\n')
    if line.contains '=' then
      some (pyStripChars [('"'), Char.ofNat 39] (pyStrip (afterFirst '=' line)))
    else none
  else none

/-- Embeds `GameDiscovery._extract_title` (game_discovery.py lines 75-101):
the comment scan over the first 20 lines, then the TITLE-variable fallback,
then the filename with underscores as spaces in title case. -/
def extract_title (content filename : List Char) : List Char :=
  match scanTitleComment ((pyLines content).take 20) with
  | some t => t
  | none =>
    match titleVarL content with
    | some t => t
    | none => pyTitle (filename.map (fun c => if c = '_' then ' ' else c))

/-- Docstring-collecting loop of `GameDiscovery._extract_description`
(lines 107-128), with the `in_docstring` flag and the accumulated lines made
explicit. -/
def scanDocstring : List (List Char) → Bool → List (List Char) → List (List Char)
  | [], _, acc => acc
  | l :: rest, inDoc, acc =>
    let line := pyStrip l
    if startsWithL line dquote3 || startsWithL line squote3 then
      if inDoc then acc
      else
        let desc := pyStrip (line.drop 3)
        let acc2 := if (!desc.isEmpty) && (!endsWithL desc dquote3) && (!endsWithL desc squote3)
                    then acc ++ [desc] else acc
        scanDocstring rest true acc2
    else if inDoc then
      if endsWithL line dquote3 || endsWithL line squote3 then
        let desc := pyStrip (line.take (line.length - 3))
        if !desc.isEmpty then acc ++ [desc] else acc
      else scanDocstring rest true (acc ++ [line])
    else scanDocstring rest false acc

/-- Description-comment loop of `_extract_description` (lines 134-138). -/
def scanDescComment : List (List Char) → Option (List Char)
  | [] => none
  | l :: rest =>
    let line := pyStrip l
    if startsWithL line [('#')] &&
       (isSubL (("description").toList) (pyLower line) || isSubL (("about").toList) (pyLower line)) then
      if line.contains ':' then some (pyStrip (afterFirst ':' line))
      else scanDescComment rest
    else scanDescComment rest

/-- Embeds `GameDiscovery._extract_description` (lines 103-140). -/
def extract_description (content : List Char) : List Char :=
  let lines := pyLines content
  let ds := scanDocstring lines false []
  if !ds.isEmpty then joinSpace ds
  else match scanDescComment (lines.take 30) with
       | some d => d
       | none => ("A Python game").toList

/-- True when any of the keywords occurs in the given text, the model of
Python `any(word in content_lower for word in [...])`. -/
def anyKw (kws : List (List Char)) (cl : List Char) : Bool :=
  kws.any (fun w => isSubL w cl)

/-- Embeds `GameDiscovery._detect_category` (lines 142-168). -/
def detect_category (content : List Char) : List Char :=
  let cl := pyLower content
  if anyKw [("platform").toList, ("jump").toList, ("gravity").toList] cl then ("platformer").toList
  else if anyKw [("shoot").toList, ("bullet").toList, ("enemy").toList, ("alien").toList] cl then ("shooter").toList
  else if anyKw [("puzzle").toList, ("solve").toList, ("brain").toList, ("logic").toList] cl then ("puzzle").toList
  else if anyKw [("race").toList, ("car").toList, ("speed").toList, ("lap").toList] cl then ("racing").toList
  else if anyKw [("break").toList, ("brick").toList, ("ball").toList, ("paddle").toList] cl then ("arcade").toList
  else if anyKw [("click").toList, ("increment").toList, ("upgrade").toList] cl then ("clicker").toList
  else if anyKw [("quiz").toList, ("question").toList, ("answer").toList] cl then ("quiz").toList
  else if anyKw [("board").toList, ("chess").toList, ("checkers").toList] cl then ("board").toList
  else if anyKw [("type").toList, ("typing").toList, ("keyboard").toList] cl then ("typing").toList
  else if anyKw [("build").toList, ("city").toList, ("simulation").toList] cl then ("simulation").toList
  else ("arcade").toList

/-- Embeds `GameDiscovery._detect_multiplayer` (lines 170-173). -/
def detect_multiplayer (content : List Char) : Bool :=
  anyKw [("multiplayer").toList, ("player2").toList, ("network").toList,
         ("socket").toList, ("client").toList, ("server").toList] (pyLower content)

/-- Append an element when not already present: the model of adding to a
Python `set` of strings, read back in insertion order (the claims only
depend on membership, not on the unspecified set iteration order). -/
def addUnique (l : List (List Char)) (x : List Char) : List (List Char) :=
  if l.contains x then l else l ++ [x]

/-- Embeds `GameDiscovery._extract_requirements` (lines 175-191); the Python
set of package names is modelled with `addUnique`. -/
def extract_requirements (content : List Char) : List (List Char) :=
  (pyLines content).foldl
    (fun req l =>
      let line := pyStrip l
      if startsWithL line (("import ").toList) || startsWithL line (("from ").toList) then
        if isSubL (("import").toList) line then
          let parts := pySplitWs line
          match parts.get? 1 with
          | some p1 =>
            let package := p1.takeWhile (fun c => c ≠ '.')
            if [("os").toList, ("sys").toList, ("random").toList,
                ("math").toList, ("time").toList].contains package
            then req else addUnique req package
          | none => req
        else req
      else req)
    [("pygame").toList]

/-- Embeds `GameDiscovery._generate_tags` (lines 193-218). -/
def generate_tags (content : List Char) : List (List Char) :=
  let cl := pyLower content
  let tags : List (List Char) := []
  let tags := if isSubL (("retro").toList) cl || isSubL (("pixel").toList) cl then tags ++ [("retro").toList] else tags
  let tags := if isSubL (("neon").toList) cl || isSubL (("glow").toList) cl then tags ++ [("neon").toList] else tags
  let tags := if isSubL (("action").toList) cl || isSubL (("fast").toList) cl then tags ++ [("action").toList] else tags
  let tags := if isSubL (("casual").toList) cl || isSubL (("relax").toList) cl then tags ++ [("casual").toList] else tags
  let tags := if isSubL (("hard").toList) cl || isSubL (("difficult").toList) cl then tags ++ [("challenging").toList] else tags
  let tags := if isSubL (("pygame").toList) cl then tags ++ [("pygame").toList] else tags
  let tags := if isSubL (("class").toList) cl then tags ++ [("oop").toList] else tags
  tags.take 5

/-- Python `Path.stem`: the file name without its last extension. -/
def stemOf (name : List Char) : List Char :=
  if name.contains '.' then ((name.reverse.dropWhile (fun c => c ≠ '.')).drop 1).reverse
  else name

/-- A directory entry handed to the discovery scan: its file name
(`Path.name`) and its text content (the result of a successful read). -/
structure SrcFile where
  name : List Char
  content : List Char
deriving DecidableEq, Repr

/-- The game-metadata dictionary built by `GameDiscovery._analyze_game_file`
(game_discovery.py lines 47-67), one field per dictionary key. -/
structure GameInfo where
  id : List Char
  title : List Char
  file : List Char
  description : List Char
  category : List Char
  difficulty : List Char
  estimated_playtime : List Char
  multiplayer : Bool
  requirements : List (List Char)
  version : List Char
  author : List Char
  tags : List (List Char)
  thumbnail : List Char
  achievements : List (List Char)
  leaderboard : Bool
  last_played : Option (List Char)
  playtime : Int
  high_score : Int
  completion_rate : ℚ
deriving DecidableEq, Repr

/-- The metadata record `_analyze_game_file` builds for a file whose source
parses (lines 47-67). -/
def mkGameInfo (f : SrcFile) : GameInfo :=
  { id := stemOf f.name
    title := extract_title f.content (stemOf f.name)
    file := f.name
    description := extract_description f.content
    category := detect_category f.content
    difficulty := ("medium").toList
    estimated_playtime := ("10-20 min").toList
    multiplayer := detect_multiplayer f.content
    requirements := extract_requirements f.content
    version := ("1.0.0").toList
    author := ("Unknown").toList
    tags := generate_tags f.content
    thumbnail := ("assets/thumbnails/").toList ++ stemOf f.name ++ (".png").toList
    achievements := []
    leaderboard := false
    last_played := none
    playtime := 0
    high_score := 0
    completion_rate := 0 }

/-- The message printed by the `except` arm of `_analyze_game_file`
(line 72), returned here as data. -/
def analyzeErrorMsg (f : SrcFile) (e : List Char) : List Char :=
  ("Error analyzing ").toList ++ f.name ++ (": ").toList ++ e

/-- Embeds `GameDiscovery._analyze_game_file` (lines 38-73).  `ast.parse` is
modelled by the `pyParse` parameter; a parse failure is the exception the
`try` block catches, upon which the function reports the printed error
message and yields no metadata. -/
def analyze_game_file (pyParse : List Char → Except (List Char) Unit) (f : SrcFile) :
    Option GameInfo × List (List Char) :=
  match pyParse f.content with
  | Except.error e => (none, [analyzeErrorMsg f e])
  | Except.ok _ => (some (mkGameInfo f), [])

/-- The games folder as seen by `scan_games_folder`: whether the path exists,
and the directory entries in listing order. -/
structure Folder where
  folder_exists : Bool
  files : List SrcFile

/-- Embeds `GameDiscovery.scan_games_folder` (game_discovery.py lines 20-36):
a missing folder yields no games; the glob pattern keeps the files named
`*.py`; names starting with two underscores are skipped; each remaining file
is analyzed, the successful analyses are collected in order, and the printed
error messages are returned alongside.  `scanStep` is one iteration of the
scan loop (lines 27-33): a non-`*.py` entry and a double-underscore name
contribute nothing; any other file is analyzed and its result or its error
message is appended. -/
def scanStep (pyParse : List Char → Except (List Char) Unit)
    (acc : List GameInfo × List (List Char)) (f : SrcFile) :
    List GameInfo × List (List Char) :=
  if endsWithL f.name ((".py").toList) then
    if startsWithL f.name (("__").toList) then acc
    else
      match analyze_game_file pyParse f with
      | (some gi, errs) => (acc.1 ++ [gi], acc.2 ++ errs)
      | (none, errs) => (acc.1, acc.2 ++ errs)
  else acc

def scan_games_folder (pyParse : List Char → Except (List Char) Unit) (folder : Folder) :
    List GameInfo × List (List Char) :=
  if folder.folder_exists = false then ([], [])
  else folder.files.foldl (scanStep pyParse) ([], [])

/-
Catalog merge (GameDiscovery.merge_with_config, game_discovery.py
lines 220-269).  The JSON values stored in a catalog entry are modelled by
`GVal`; a catalog-entry dictionary (whose keys are dynamic) is modelled as a
function from keys to optional values.  Loading the configuration file is an
effect: the parsed list of existing catalog entries and the list of
discovered entries (`self.discovered_games`, dictionaries by construction)
are passed in as parameters, and the function returns the merged games list
(the `games` entry of the final configuration; copying the remaining
configuration keys and defaulting `hub_settings` touch no game entry). -/
inductive GVal where
  | vstr : String → GVal
  | vint : Int → GVal
  | vrat : ℚ → GVal
  | vbool : Bool → GVal
  | vnone : GVal
deriving DecidableEq, Repr

/-- Python truthiness of a JSON value, as used by `if filename:`. -/
def pyTruthy : GVal → Bool
  | GVal.vstr s => s ≠ ""
  | GVal.vint n => n ≠ 0
  | GVal.vrat q => q ≠ 0
  | GVal.vbool b => b
  | GVal.vnone => false

/-- A catalog entry: a Python dictionary with string keys and JSON values. -/
def Entry : Type := String → Option GVal

/-- Python `entry.get(k, d)`. -/
def entryGet (e : Entry) (k : String) (d : GVal) : GVal := (e k).getD d

/-- The four user-owned keys that `merge_with_config` never overwrites
(game_discovery.py line 248). -/
def userOwnedKeys : List String := ["playtime", "high_score", "last_played", "completion_rate"]

/-- The filename-keyed lookup table built from the existing configuration
(game_discovery.py lines 229-234): entries whose `file` value is falsy are
not indexed, later entries with the same filename shadow earlier ones. -/
def buildExistingMap (games : List Entry) : GVal → Option Entry :=
  games.foldl
    (fun m g =>
      let filename := entryGet g ("file") (GVal.vstr "")
      if pyTruthy filename then (fun x => if x = filename then some g else m x) else m)
    (fun _ => none)

/-- The merge of one discovered entry against a matching existing entry
(game_discovery.py lines 242-248): copy the existing entry, add the
discovered `id` when the copy has none, then overlay every key the
discovered entry carries except the user-owned four. -/
def mergeEntry (existing discovered : Entry) : Entry :=
  let e1 : Entry := fun k =>
    if (existing ("id")).isNone ∧ k = "id" then discovered ("id") else existing k
  fun k =>
    if (userOwnedKeys.contains k = false) ∧ (discovered k).isSome then discovered k else e1 k

/-- The per-discovered-entry step of the merge loop (lines 238-252): a
discovered entry whose filename matches an indexed existing entry is merged
with it, any other discovered entry is taken as is. -/
def mergeOne (m : GVal → Option Entry) (d : Entry) : Entry :=
  let filename := entryGet d ("file") (GVal.vstr "")
  match m filename with
  | some e => mergeEntry e d
  | none => d

/-- Embeds the games portion of `GameDiscovery.merge_with_config`
(game_discovery.py lines 228-256): the merged games list is the discovered
list mapped through `mergeOne` against the filename index of the existing
configuration.  Every discovered entry carries a `file` key by construction
(`_analyze_game_file` always sets one); `entryGet` supplies the Python
`KeyError`-free reading used by the theorems below. -/
def merge_with_config (discovered existing_games : List Entry) : List Entry :=
  discovered.map (mergeOne (buildExistingMap existing_games))

/-
Profile and statistics manager (src/core/profile_manager.py).  Statistics
and profile state are explicit records; `datetime.now()` and its formatted
variants are passed in as a `Timestamp`; `_save_profile` and `_save_stats`
write the very state that is returned, so persistence adds nothing to the
state transition.  Python dictionaries with data-dependent keys are
insertion-ordered association lists, floats are exact rationals. -/
structure Timestamp where
  iso : String
  day : String
  week : String
  month : String
deriving DecidableEq, Repr

/-- Key lookup in an association list, first binding wins: the reading of a
Python dictionary at a key, `none` for a missing key. -/
def lookupA {α : Type} : List (String × α) → String → Option α
  | [], _ => none
  | p :: t, k => if p.1 = k then some p.2 else lookupA t k

/-- Membership test on a list of strings, Python `x in l`. -/
def memA : List String → String → Bool
  | [], _ => false
  | a :: t, x => if a = x then true else memA t x

/-- Write a key in an association list the way Python dictionary assignment
does: replace the value in place when the key is present, append otherwise. -/
def updA {α : Type} (m : List (String × α)) (k : String) (v : α) : List (String × α) :=
  if (lookupA m k).isSome then m.map (fun p => if p.1 = k then (k, v) else p) else m ++ [(k, v)]

/-- Per-game statistics record (profile_manager.py lines 139-146). -/
structure GameStats where
  playtime : Int
  sessions : Nat
  high_score : Int
  average_score : ℚ
  last_played : Option String
  completion_rate : ℚ
deriving DecidableEq, Repr

/-- The fresh per-game record inserted on a game's first session
(profile_manager.py lines 139-146). -/
def defaultGameStats : GameStats :=
  { playtime := 0, sessions := 0, high_score := 0, average_score := 0,
    last_played := none, completion_rate := 0 }

/-- One day's bucket of `daily_stats` (profile_manager.py line 178). -/
structure DailyStats where
  playtime : Int
  games : List String
  scores : List (String × List Int)
deriving DecidableEq, Repr

/-- The fresh daily bucket (line 178). -/
def defaultDailyStats : DailyStats := { playtime := 0, games := [], scores := [] }

/-- A weekly or monthly bucket (lines 190 and 199); the Python `set` of game
ids is modelled as an insertion-ordered duplicate-free list. -/
structure PeriodStats where
  playtime : Int
  games : List String
  sessions : Nat
deriving DecidableEq, Repr

/-- The fresh weekly or monthly bucket. -/
def defaultPeriodStats : PeriodStats := { playtime := 0, games := [], sessions := 0 }

/-- The statistics document `stats_data` (profile_manager.py lines 69-79). -/
structure StatsData where
  total_playtime : Int
  games_played : Nat
  favorite_category : String
  achievement_count : Nat
  high_scores : List (String × Int)
  game_stats : List (String × GameStats)
  daily_stats : List (String × DailyStats)
  weekly_stats : List (String × PeriodStats)
  monthly_stats : List (String × PeriodStats)
deriving DecidableEq, Repr

/-- The default statistics created by `_load_stats` (lines 69-79). -/
def initialStatsData : StatsData :=
  { total_playtime := 0, games_played := 0, favorite_category := "arcade",
    achievement_count := 0, high_scores := [], game_stats := [],
    daily_stats := [], weekly_stats := [], monthly_stats := [] }

/-- Add a game id to a bucket's id list the way lines 194 and 203 do
(`list(set(games) | set([game_id]))`, modulo the unspecified set order):
no change when present, appended when absent. -/
def addGameId (l : List String) (gid : String) : List String :=
  if memA l gid then l else l ++ [gid]

/-- Embeds `ProfileManager._update_time_based_stats` (profile_manager.py
lines 169-204): the daily bucket gains playtime, the game id (once) and the
session's score appended to the per-game score list; the weekly and monthly
buckets gain playtime, the game id (once) and a session count. -/
def update_time_based_stats (now : Timestamp) (st : StatsData) (game_id : String)
    (duration : Int) (score : Int) : StatsData :=
  let daily0 := (lookupA st.daily_stats now.day).getD defaultDailyStats
  let daily1 := { daily0 with
    playtime := daily0.playtime + duration
    games := if memA daily0.games game_id then daily0.games else daily0.games ++ [game_id] }
  let scores0 := (lookupA daily1.scores game_id).getD []
  let daily2 := { daily1 with scores := updA daily1.scores game_id (scores0 ++ [score]) }
  let weekly0 := (lookupA st.weekly_stats now.week).getD defaultPeriodStats
  let weekly1 := { weekly0 with
    playtime := weekly0.playtime + duration
    games := addGameId weekly0.games game_id
    sessions := weekly0.sessions + 1 }
  let monthly0 := (lookupA st.monthly_stats now.month).getD defaultPeriodStats
  let monthly1 := { monthly0 with
    playtime := monthly0.playtime + duration
    games := addGameId monthly0.games game_id
    sessions := monthly0.sessions + 1 }
  { st with
    daily_stats := updA st.daily_stats now.day daily2
    weekly_stats := updA st.weekly_stats now.week weekly1
    monthly_stats := updA st.monthly_stats now.month monthly1 }

/-- Embeds `ProfileManager.record_game_session` (profile_manager.py
lines 131-167): totals, per-game playtime, session count and last-played
stamp always move; the high score moves only upward; the running average
moves only on a strictly positive score, divided by the already incremented
session count; finally the time-based buckets are updated. -/
def record_game_session (now : Timestamp) (st : StatsData) (game_id : String)
    (duration_seconds : Int) (score : Int) : StatsData :=
  let st1 := { st with
    total_playtime := st.total_playtime + duration_seconds
    games_played := st.games_played + 1 }
  let gs0 := (lookupA st1.game_stats game_id).getD defaultGameStats
  let gs1 := { gs0 with
    playtime := gs0.playtime + duration_seconds
    sessions := gs0.sessions + 1
    last_played := some now.iso }
  let gs2 := if score > gs1.high_score then { gs1 with high_score := score } else gs1
  let high_scores2 := if score > gs1.high_score then updA st1.high_scores game_id score
                      else st1.high_scores
  let gs3 := if score > 0 then
      { gs2 with average_score :=
          ((gs2.average_score * ((gs2.sessions : ℚ) - 1)) + (score : ℚ)) / (gs2.sessions : ℚ) }
    else gs2
  let st2 := { st1 with
    game_stats := updA st1.game_stats game_id gs3
    high_scores := high_scores2 }
  update_time_based_stats now st2 game_id duration_seconds score

/-- An unlocked achievement's record (profile_manager.py lines 245-249). -/
structure Achievement where
  unlocked_date : String
  game_id : Option String
  description : String
deriving DecidableEq, Repr

/-- The profile fields the embedded operations read or write
(profile_manager.py lines 36-58); the remaining profile fields
(preferences, blocked games, parental settings, creation dates) are neither
read nor written by the operations below. -/
structure ProfileData where
  favorites : List String
  achievements : List (String × Achievement)
deriving DecidableEq, Repr

/-- Embeds `ProfileManager.add_favorite` (profile_manager.py lines 114-118). -/
def add_favorite (p : ProfileData) (game_id : String) : ProfileData :=
  if memA p.favorites game_id then p
  else { p with favorites := p.favorites ++ [game_id] }

/-- Embeds `ProfileManager.remove_favorite` (lines 120-124). -/
def remove_favorite (p : ProfileData) (game_id : String) : ProfileData :=
  if memA p.favorites game_id then { p with favorites := p.favorites.erase game_id }
  else p

/-- Embeds `ProfileManager.unlock_achievement` (profile_manager.py
lines 242-254): a new achievement id is inserted with its record and bumps
the achievement count, returning the success signal; a held id changes
nothing and returns the failure signal. -/
def unlock_achievement (now : Timestamp) (p : ProfileData) (st : StatsData)
    (achievement_id : String) (game_id : Option String) (description : String) :
    Bool × ProfileData × StatsData :=
  if (lookupA p.achievements achievement_id).isSome then (false, p, st)
  else
    (true,
     { p with achievements :=
         p.achievements ++ [(achievement_id,
           { unlocked_date := now.iso, game_id := game_id, description := description })] },
     { st with achievement_count := st.achievement_count + 1 })

/-- The fields of a catalog game dictionary the recommendation code reads:
`g` with `g` read at `id` (always present in a catalog entry) and at
`category` (read with `.get`). -/
structure RecGame where
  id : String
  category : Option String
deriving DecidableEq, Repr

/-- First key of maximal value, Python `max(d, key=d.get)` over a dictionary
in insertion order: a later key replaces the champion only when strictly
greater. -/
def maxKeyByVal (l : List (String × Int)) : String :=
  match l with
  | [] => ""
  | p :: t => (t.foldl (fun best q => if q.2 > best.2 then q else best) p).1

/-- The played-category playtime totals computed by
`ProfileManager.get_recommended_games` (profile_manager.py lines 277-283):
each played game found in the catalog adds its playtime to its category. -/
def played_categories_of (st : StatsData) (all_games : List RecGame) : List (String × Int) :=
  st.game_stats.foldl
    (fun pc p =>
      match all_games.find? (fun g => g.id = p.1) with
      | some gi =>
        let category := gi.category.getD "arcade"
        updA pc category (((lookupA pc category).getD 0) + p.2.playtime)
      | none => pc)
    []

/-- The favorite category of `get_recommended_games` (lines 286-291): the
first category of maximal accumulated playtime, `arcade` when no played game
appears in the catalog. -/
def favoriteCategoryOf (st : StatsData) (all_games : List RecGame) : String :=
  if played_categories_of st all_games = [] then "arcade"
  else maxKeyByVal (played_categories_of st all_games)

/-- Embeds `ProfileManager.get_recommended_games` (profile_manager.py
lines 270-305).  With no per-game statistics at all, the first `limit`
catalog entries are returned.  Otherwise the favorite category is derived
as above (and recorded into the returned statistics when any played game
was found in the catalog), and the recommendation is: unplayed
favorite-category games in catalog order, then the other unplayed games,
cut to `limit`.  The `limit` parameter models the Python non-negative
slice bound. -/
def get_recommended_games (st : StatsData) (all_games : List RecGame) (limit : Nat) :
    List RecGame × StatsData :=
  if st.game_stats = [] then (all_games.take limit, st)
  else
    let favorite_category := favoriteCategoryOf st all_games
    let st2 := if played_categories_of st all_games = [] then st
               else { st with favorite_category := favorite_category }
    let played_game_ids := st.game_stats.map Prod.fst
    let unplayed_games := all_games.filter (fun g => !memA played_game_ids g.id)
    let category_games := unplayed_games.filter (fun g => g.category = some favorite_category)
    let other_games := unplayed_games.filter (fun g => g.category ≠ some favorite_category)
    let recommended := category_games.take limit
    let recommended2 := if recommended.length < limit
      then recommended ++ other_games.take (limit - recommended.length) else recommended
    (recommended2.take limit, st2)

/-
Derived notions and concrete inputs used by the theorems below.
-/

/-- A sequence of `record_game_session` calls for one game, oldest first,
each session a pair of duration and score. -/
def runSessions (now : Timestamp) (st : StatsData) (gid : String)
    (l : List (Int × Int)) : StatsData :=
  l.foldl (fun s p => record_game_session now s gid p.1 p.2) st

/-- The stored per-game statistics of a game, the fresh record when absent. -/
def statsOf (st : StatsData) (gid : String) : GameStats :=
  (lookupA st.game_stats gid).getD defaultGameStats

/-- The stored list of scores of one game inside one day's bucket. -/
def dailyScoresOf (st : StatsData) (day gid : String) : List Int :=
  (lookupA ((lookupA st.daily_stats day).getD defaultDailyStats).scores gid).getD []

/-- Following the claim's words (claim C3), not the code: the first line of
the leading documentation block of a source text — the first non-blank line,
when it opens a triple-quoted block, gives that line's text without the
quotes. -/
def docBlockFirstLineClaim (content : List Char) : Option (List Char) :=
  match ((pyLines content).map pyStrip).filter (fun l => !l.isEmpty) with
  | [] => none
  | l :: _ =>
    if startsWithL l dquote3 || startsWithL l squote3 then
      let inner := pyStrip (pyStripChars [('"'), Char.ofNat 39] l)
      if inner.isEmpty then none else some inner
    else none

/-- A fixed session timestamp for the concrete runs below. -/
def now0 : Timestamp :=
  { iso := "2026-10-12T10:00:00", day := "2026-10-12",
    week := "2026-W41", month := "2026-10" }

/-- Source text whose only title carrier is its module docstring. -/
def cEx : List Char := ("\"\"\"My Great Game\"\"\"\npass\n").toList

/-- A source file that does not parse. -/
def exBad : SrcFile :=
  { name := ("bad.py").toList, content := ("def broken(:\n").toList }

/-- A valid source file with a title comment. -/
def exGoodA : SrcFile :=
  { name := ("snake.py").toList,
    content := ("# Title: Snake Deluxe\nimport pygame\n").toList }

/-- A valid source file with a docstring. -/
def exGoodB : SrcFile :=
  { name := ("pong.py").toList,
    content := ("\"\"\"\nClassic paddle game\n\"\"\"\nimport pygame\n").toList }

/-- A parser that rejects exactly the bad file's content. -/
def exParse : List Char → Except (List Char) Unit := fun c =>
  if c = exBad.content then Except.error (("invalid syntax").toList) else Except.ok ()

/-- An existing catalog entry with user data for the merge runs below. -/
def entE : Entry := fun k =>
  if k = "file" then some (GVal.vstr "snake.py")
  else if k = "playtime" then some (GVal.vint 42)
  else if k = "high_score" then some (GVal.vint 9000)
  else if k = "title" then some (GVal.vstr "Old Snake")
  else none

/-- A freshly discovered catalog entry for the same file. -/
def entD : Entry := fun k =>
  if k = "file" then some (GVal.vstr "snake.py")
  else if k = "id" then some (GVal.vstr "snake")
  else if k = "title" then some (GVal.vstr "Snake Deluxe")
  else if k = "playtime" then some (GVal.vint 0)
  else none

/-- A small catalog for the recommendation runs below. -/
def gamesEx : List RecGame :=
  [ { id := "snake", category := some ("arcade") },
    { id := "maze", category := some ("puzzle") },
    { id := "pong", category := some ("arcade") },
    { id := "quizzy", category := some ("quiz") } ]

/-- Statistics of a user who has played one arcade game. -/
def stP : StatsData :=
  { initialStatsData with
    game_stats := [("snake", { defaultGameStats with playtime := 100, sessions := 2 })] }

/-- A line the title-comment loop of `_extract_title` accepts: once stripped
it is a comment mentioning title or name and carrying a colon or a dash. -/
def titleCommentHit (l : List Char) : Prop :=
  (startsWithL (pyStrip l) [('#')]
    && (isSubL (("title").toList) (pyLower (pyStrip l))
        || isSubL (("name").toList) (pyLower (pyStrip l)))) = true
  ∧ ((pyStrip l).contains ':' = true ∨ (pyStrip l).contains '-' = true)

instance (l : List Char) : Decidable (titleCommentHit l) := by
  unfold titleCommentHit
  infer_instance

/-- The per-game record transition of one `record_game_session` call
(profile_manager.py lines 148-162), written over the looked-up record alone:
always one more session, playtime and last-played move, the high score is
raised on a strictly greater score, the running average moves only on a
strictly positive score. -/
def recordGameStep (now : Timestamp) (gs0 : GameStats) (d s : Int) : GameStats :=
  let gs1 : GameStats :=
    { gs0 with
      playtime := gs0.playtime + d
      sessions := gs0.sessions + 1
      last_played := some now.iso }
  let gs2 := if s > gs1.high_score then { gs1 with high_score := s } else gs1
  if s > 0 then
    { gs2 with average_score :=
        ((gs2.average_score * ((gs2.sessions : ℚ) - 1)) + (s : ℚ)) / (gs2.sessions : ℚ) }
  else gs2

/-
Helper lemmas about the association-list dictionary model.
-/

theorem lookupA_append_right {α : Type} (m : List (String × α)) (k : String) (v : α)
    (h : lookupA m k = none) : lookupA (m ++ [(k, v)]) k = some v := by
  induction m with
  | nil => simp [lookupA]
  | cons p t ih =>
    by_cases hp : p.1 = k
    · simp [lookupA, hp] at h
    · simp only [lookupA, hp, if_false, List.cons_append] at h ⊢
      exact ih h

theorem lookupA_append_ne {α : Type} (m : List (String × α)) (k k' : String) (v : α)
    (h : k' ≠ k) : lookupA (m ++ [(k, v)]) k' = lookupA m k' := by
  induction m with
  | nil =>
    simp only [List.nil_append, lookupA]
    rw [if_neg (fun hh : k = k' => h hh.symm)]
  | cons p t ih =>
    by_cases hp : p.1 = k'
    · simp [lookupA, hp]
    · simp only [List.cons_append, lookupA, hp, if_false]
      exact ih

theorem lookupA_map_set {α : Type} (m : List (String × α)) (k : String) (v : α)
    (h : (lookupA m k).isSome) :
    lookupA (m.map (fun p => if p.1 = k then (k, v) else p)) k = some v := by
  induction m with
  | nil => simp [lookupA] at h
  | cons p t ih =>
    by_cases hp : p.1 = k
    · simp [lookupA, hp]
    · simp only [lookupA, hp, if_false] at h
      simp only [List.map_cons, if_neg hp, lookupA, hp, if_false]
      exact ih h

theorem lookupA_map_set_ne {α : Type} (m : List (String × α)) (k k' : String) (v : α)
    (h : k' ≠ k) :
    lookupA (m.map (fun p => if p.1 = k then (k, v) else p)) k' = lookupA m k' := by
  induction m with
  | nil => rfl
  | cons p t ih =>
    by_cases hp : p.1 = k
    · simp only [List.map_cons, if_pos hp, lookupA]
      rw [if_neg (fun hh : k = k' => h hh.symm), if_neg (fun hh : p.1 = k' => h (hp ▸ hh).symm)]
      exact ih
    · simp only [List.map_cons, if_neg hp, lookupA]
      by_cases hq : p.1 = k'
      · simp [hq]
      · simp only [hq, if_false]
        exact ih

theorem lookupA_updA_self {α : Type} (m : List (String × α)) (k : String) (v : α) :
    lookupA (updA m k v) k = some v := by
  unfold updA
  split
  · exact lookupA_map_set m k v (by assumption)
  · exact lookupA_append_right m k v
      (Option.not_isSome_iff_eq_none.mp (by assumption))

theorem lookupA_updA_ne {α : Type} (m : List (String × α)) (k k' : String) (v : α)
    (h : k' ≠ k) : lookupA (updA m k v) k' = lookupA m k' := by
  unfold updA
  split
  · exact lookupA_map_set_ne m k k' v h
  · exact lookupA_append_ne m k k' v h

theorem memA_append_self (l : List String) (x : String) : memA (l ++ [x]) x = true := by
  induction l with
  | nil => simp [memA]
  | cons a t ih =>
    by_cases ha : a = x <;> simp [memA, ha, ih]

theorem memA_eq_false_iff (l : List String) (x : String) : memA l x = false ↔ x ∉ l := by
  induction l with
  | nil => simp [memA]
  | cons a t ih =>
    by_cases ha : a = x
    · subst ha; simp [memA]
    · simp [memA, ha, ih, Ne.symm ha]

/-
Step lemmas for `record_game_session`.
-/

theorem update_time_game_stats (now : Timestamp) (st : StatsData) (gid : String) (d s : Int) :
    (update_time_based_stats now st gid d s).game_stats = st.game_stats := rfl

theorem statsOf_record (now : Timestamp) (st : StatsData) (gid : String) (d s : Int) :
    statsOf (record_game_session now st gid d s) gid
      = recordGameStep now (statsOf st gid) d s := by
  simp only [record_game_session, statsOf, update_time_game_stats, lookupA_updA_self,
    Option.getD_some, recordGameStep]

theorem recordStep_sessions (now : Timestamp) (gs0 : GameStats) (d s : Int) :
    (recordGameStep now gs0 d s).sessions = gs0.sessions + 1 := by
  simp only [recordGameStep]
  split <;> split <;> rfl

theorem recordStep_avg_zero (now : Timestamp) (gs0 : GameStats) (d s : Int) (h : ¬s > 0) :
    (recordGameStep now gs0 d s).average_score = gs0.average_score := by
  simp only [recordGameStep, if_neg h]
  split <;> rfl

theorem recordStep_avg_pos (now : Timestamp) (gs0 : GameStats) (d s : Int) (h : s > 0) :
    (recordGameStep now gs0 d s).average_score
      = (gs0.average_score * (gs0.sessions : ℚ) + (s : ℚ)) / ((gs0.sessions : ℚ) + 1) := by
  simp only [recordGameStep, if_pos h]
  split <;> · push_cast; ring_nf

theorem recordStep_high (now : Timestamp) (gs0 : GameStats) (d s : Int) :
    (recordGameStep now gs0 d s).high_score = max gs0.high_score s := by
  simp only [recordGameStep]
  by_cases h : s > gs0.high_score
  · rw [if_pos h]
    rw [max_eq_right (le_of_lt h)]
    split <;> rfl
  · rw [if_neg h]
    rw [max_eq_left (not_lt.mp h)]
    split <;> rfl

theorem runSessions_append (now : Timestamp) (st : StatsData) (gid : String)
    (l : List (Int × Int)) (p : Int × Int) :
    runSessions now st gid (l ++ [p])
      = record_game_session now (runSessions now st gid l) gid p.1 p.2 := by
  simp [runSessions]

theorem runSessions_avg_invariant (now : Timestamp) (st0 : StatsData) (gid : String)
    (l : List (Int × Int)) (h0 : lookupA st0.game_stats gid = none)
    (hpos : ∀ p ∈ l, 0 < p.2) :
    (statsOf (runSessions now st0 gid l) gid).sessions = l.length
    ∧ (statsOf (runSessions now st0 gid l) gid).average_score * (l.length : ℚ)
        = (((l.map (fun p => p.2)).sum : Int) : ℚ) := by
  induction l using List.reverseRecOn with
  | nil =>
    constructor
    · simp [runSessions, statsOf, h0, defaultGameStats]
    · simp [runSessions, statsOf, h0, defaultGameStats]
  | append_singleton l p ih =>
    have hl : ∀ q ∈ l, 0 < q.2 := fun q hq => hpos q (List.mem_append_left _ hq)
    have hp : 0 < p.2 := hpos p (by simp)
    obtain ⟨hs, ha⟩ := ih hl
    rw [runSessions_append]
    constructor
    · rw [statsOf_record, recordStep_sessions, hs]
      simp
    · rw [statsOf_record, recordStep_avg_pos _ _ _ _ hp, hs]
      have hn : ((l.length : ℚ) + 1) ≠ 0 := by positivity
      have hlen : (((l ++ [p]).length : ℚ)) = (l.length : ℚ) + 1 := by
        push_cast [List.length_append, List.length_singleton]
        ring
      have hsum : ((((l ++ [p]).map (fun q => q.2)).sum : Int) : ℚ)
          = (((l.map (fun q => q.2)).sum : Int) : ℚ) + (p.2 : ℚ) := by
        simp [List.map_append]
      rw [hlen, div_mul_cancel₀ _ hn, hsum, ha]

/-- Claim C1 (amended): over any sequence of `record_game_session` calls for
a game with no prior statistics whose scores are all strictly positive, the
stored average equals the arithmetic mean of the scores; a zero-score call
leaves the stored average unchanged, but it does increment the stored
session count, which is exactly the divisor of subsequent average updates. -/
theorem average_is_mean_and_zero_score_counted
    (now : Timestamp) (st0 st : StatsData) (gid : String) (l : List (Int × Int)) (d : Int)
    (h0 : lookupA st0.game_stats gid = none) (hne : l ≠ [])
    (hpos : ∀ p ∈ l, 0 < p.2) :
    (statsOf (runSessions now st0 gid l) gid).average_score
        = (((l.map (fun p => p.2)).sum : Int) : ℚ) / (l.length : ℚ)
    ∧ (statsOf (record_game_session now st gid d 0) gid).average_score
        = (statsOf st gid).average_score
    ∧ (statsOf (record_game_session now st gid d 0) gid).sessions
        = (statsOf st gid).sessions + 1 := by
  refine ⟨?_, ?_, ?_⟩
  · obtain ⟨hs, ha⟩ := runSessions_avg_invariant now st0 gid l h0 hpos
    have hn : (l.length : ℚ) ≠ 0 :=
      Nat.cast_ne_zero.mpr (fun h => hne (List.length_eq_zero.mp h))
    exact (eq_div_iff hn).mpr ha
  · rw [statsOf_record]
    exact recordStep_avg_zero now _ d 0 (by norm_num)
  · rw [statsOf_record]
    exact recordStep_sessions now _ d 0

/-- Witness for claim C1's theorem at a concrete run: two positive-score
sessions of 10 and 4 give an average of 7, and a zero-score session leaves
the average alone while raising the session count. -/
theorem average_is_mean_witness :
    (statsOf (runSessions now0 initialStatsData ("g") [(5, 10), (5, 4)]) ("g")).average_score = 7
    ∧ (statsOf (record_game_session now0 initialStatsData ("g") 3 0) ("g")).average_score
        = (statsOf initialStatsData ("g")).average_score
    ∧ (statsOf (record_game_session now0 initialStatsData ("g") 3 0) ("g")).sessions
        = (statsOf initialStatsData ("g")).sessions + 1 := by
  have h := average_is_mean_and_zero_score_counted now0 initialStatsData initialStatsData
    ("g") [(5, 10), (5, 4)] 3 rfl (by decide) (by decide)
  refine ⟨?_, h.2.1, h.2.2⟩
  rw [h.1]
  norm_num

/-- Counterexample to claim C1 as stated: a zero-score session does change
the session divisor used for subsequent average updates — after sessions
scoring 10 then 0 then 4 the stored average is 8, while without the
zero-score session the same positive scores average to 7; the zero-score
call raised the stored session count from 1 to 2. -/
theorem zero_score_changes_divisor_counterexample :
    (statsOf (runSessions now0 initialStatsData ("g") [(5, 10), (5, 0)]) ("g")).sessions = 2
    ∧ (statsOf (runSessions now0 initialStatsData ("g") [(5, 10)]) ("g")).sessions = 1
    ∧ (statsOf (runSessions now0 initialStatsData ("g") [(5, 10), (5, 0), (5, 4)]) ("g")).average_score = 8
    ∧ (statsOf (runSessions now0 initialStatsData ("g") [(5, 10), (5, 4)]) ("g")).average_score = 7 := by
  have e0 : statsOf initialStatsData ("g") = defaultGameStats := rfl
  refine ⟨?_, ?_, ?_, ?_⟩ <;>
    norm_num [runSessions, statsOf_record, e0, recordGameStep, defaultGameStats]

/-- Claim C4 (amended): the stored per-game high score never decreases on a
call; one call moves it to the maximum of the old value and the passed
score; over a sequence for a game with no prior statistics it equals the
maximum of 0 and all scores passed (hence the maximum score passed whenever
that maximum is non-negative). -/
theorem high_score_monotone_max
    (now : Timestamp) (st0 st : StatsData) (gid : String) (d s : Int) (l : List (Int × Int))
    (h0 : lookupA st0.game_stats gid = none) :
    (statsOf st gid).high_score ≤ (statsOf (record_game_session now st gid d s) gid).high_score
    ∧ (statsOf (record_game_session now st gid d s) gid).high_score
        = max (statsOf st gid).high_score s
    ∧ (statsOf (runSessions now st0 gid l) gid).high_score
        = (l.map (fun p => p.2)).foldl max 0 := by
  refine ⟨?_, ?_, ?_⟩
  · rw [statsOf_record, recordStep_high]
    exact le_max_left _ _
  · rw [statsOf_record, recordStep_high]
  · induction l using List.reverseRecOn with
    | nil => simp [runSessions, statsOf, h0, defaultGameStats]
    | append_singleton l p ih =>
      rw [runSessions_append, statsOf_record, recordStep_high, ih]
      simp [List.map_append]

/-- Witness for claim C4's theorem at a concrete run: scores 10 then 3 leave
a stored high score of 10, and one further call with score 7 moves it to
`max 10 7 = 10`. -/
theorem high_score_monotone_max_witness :
    (statsOf (runSessions now0 initialStatsData ("g") [(5, 10), (5, 3)]) ("g")).high_score = 10 := by
  have h := high_score_monotone_max now0 initialStatsData initialStatsData
    ("g") 5 7 [(5, 10), (5, 3)] rfl
  rw [h.2.2]
  decide

/-- Counterexample to claim C4 as stated: with the single (negative) score
-1 ever passed, the stored high score is 0, not the maximum score passed. -/
theorem high_score_negative_counterexample :
    (statsOf (record_game_session now0 initialStatsData ("g") 5 (-1)) ("g")).high_score = 0
    ∧ (0 : Int) ≠ (-1 : Int) := by
  constructor
  · decide
  · decide

/-- Claim C9 (confirmed): every `record_game_session` call appends its score,
a zero score included, to the current day's per-game score list. -/
theorem daily_scores_append (now : Timestamp) (st : StatsData) (gid : String) (d s : Int) :
    dailyScoresOf (record_game_session now st gid d s) now.day gid
      = dailyScoresOf st now.day gid ++ [s] := by
  simp only [record_game_session, dailyScoresOf, update_time_based_stats,
    lookupA_updA_self, Option.getD_some]

/-- Claim C5 (confirmed): adding a favorite twice equals adding it once, and
a second `unlock_achievement` call for the same achievement id returns the
already-held signal and leaves the profile and the statistics untouched. -/
theorem favorite_idempotent_achievement_once
    (p : ProfileData) (st : StatsData) (now now2 : Timestamp) (x aid : String)
    (g g2 : Option String) (desc desc2 : String) :
    add_favorite (add_favorite p x) x = add_favorite p x
    ∧ unlock_achievement now2 (unlock_achievement now p st aid g desc).2.1
        (unlock_achievement now p st aid g desc).2.2 aid g2 desc2
        = (false, (unlock_achievement now p st aid g desc).2.1,
           (unlock_achievement now p st aid g desc).2.2) := by
  constructor
  · by_cases h : memA p.favorites x
    · simp [add_favorite, h]
    · simp [add_favorite, h, memA_append_self]
  · by_cases h : (lookupA p.achievements aid).isSome
    · simp [unlock_achievement, h]
    · have hnone : lookupA p.achievements aid = none := Option.not_isSome_iff_eq_none.mp h
      simp [unlock_achievement, h, lookupA_append_right _ _ _ hnone]

theorem scanStep_dunder (pyParse : List Char → Except (List Char) Unit)
    (acc : List GameInfo × List (List Char)) (f : SrcFile)
    (h : startsWithL f.name (("__").toList) = true) :
    scanStep pyParse acc f = acc := by
  unfold scanStep
  by_cases hpy : endsWithL f.name ((".py").toList) = true
  · rw [if_pos hpy, if_pos h]
  · rw [if_neg hpy]

theorem scanStep_ok (pyParse : List Char → Except (List Char) Unit)
    (acc : List GameInfo × List (List Char)) (f : SrcFile)
    (hpy : endsWithL f.name ((".py").toList) = true)
    (hd : startsWithL f.name (("__").toList) = false)
    (hok : pyParse f.content = Except.ok ()) :
    scanStep pyParse acc f = (acc.1 ++ [mkGameInfo f], acc.2) := by
  unfold scanStep
  rw [if_pos hpy, if_neg (by rw [hd]; exact Bool.false_ne_true)]
  simp [analyze_game_file, hok]

theorem scanStep_err (pyParse : List Char → Except (List Char) Unit)
    (acc : List GameInfo × List (List Char)) (f : SrcFile) (e : List Char)
    (hpy : endsWithL f.name ((".py").toList) = true)
    (hd : startsWithL f.name (("__").toList) = false)
    (herr : pyParse f.content = Except.error e) :
    scanStep pyParse acc f = (acc.1, acc.2 ++ [analyzeErrorMsg f e]) := by
  unfold scanStep
  rw [if_pos hpy, if_neg (by rw [hd]; exact Bool.false_ne_true)]
  simp [analyze_game_file, herr]

theorem scanFold_filter_dunder (pyParse : List Char → Except (List Char) Unit)
    (files : List SrcFile) (acc : List GameInfo × List (List Char)) :
    files.foldl (scanStep pyParse) acc
      = (files.filter (fun f => !startsWithL f.name (("__").toList))).foldl
          (scanStep pyParse) acc := by
  induction files generalizing acc with
  | nil => rfl
  | cons f t ih =>
    rw [List.foldl_cons, List.filter_cons]
    by_cases h : startsWithL f.name (("__").toList) = true
    · rw [scanStep_dunder pyParse acc f h, h]
      rw [if_neg (by simp)]
      exact ih acc
    · have hb : startsWithL f.name (("__").toList) = false := by
        cases hx : startsWithL f.name (("__").toList)
        · rfl
        · exact absurd hx h
      rw [hb]
      rw [if_pos (by simp)]
      rw [List.foldl_cons]
      exact ih (scanStep pyParse acc f)

/-- Claim C10 (confirmed): a missing games folder yields the empty result and
no error, and files whose names start with two underscores never contribute —
the scan of a folder equals the scan with those files removed. -/
theorem scan_missing_folder_skips_dunder (pyParse : List Char → Except (List Char) Unit)
    (folder : Folder) :
    (folder.folder_exists = false → scan_games_folder pyParse folder = ([], []))
    ∧ scan_games_folder pyParse folder
        = scan_games_folder pyParse
            { folder with files := folder.files.filter (fun f => !startsWithL f.name (("__").toList)) } := by
  constructor
  · intro h
    unfold scan_games_folder
    rw [if_pos h]
  · unfold scan_games_folder
    by_cases h : folder.folder_exists = false
    · rw [if_pos h, if_pos h]
    · rw [if_neg h, if_neg h]
      exact scanFold_filter_dunder pyParse folder.files ([], [])

/-- Witness for claim C10's theorem: a concrete missing folder scans to
nothing, and the dunder-filter identity at a concrete folder. -/
theorem scan_missing_folder_skips_dunder_witness :
    scan_games_folder exParse { folder_exists := false, files := [exGoodA] } = ([], [])
    ∧ scan_games_folder exParse { folder_exists := true, files := [exGoodA] }
        = scan_games_folder exParse
            { folder_exists := true,
              files := [exGoodA].filter (fun f => !startsWithL f.name (("__").toList)) } := by
  constructor
  · exact (scan_missing_folder_skips_dunder exParse
      { folder_exists := false, files := [exGoodA] }).1 rfl
  · exact (scan_missing_folder_skips_dunder exParse
      { folder_exists := true, files := [exGoodA] }).2

/-- Claim C7 (confirmed): a scan over one unparsable file and two valid files
returns exactly the two valid games together with one recorded error message
for the bad file; the embedding is a total function, so no exception escapes
the scan call. -/
theorem scan_isolates_bad_file (pyParse : List Char → Except (List Char) Unit)
    (f1 f2 f3 : SrcFile) (e : List Char)
    (h1 : pyParse f1.content = Except.error e)
    (h2 : pyParse f2.content = Except.ok ())
    (h3 : pyParse f3.content = Except.ok ())
    (hpy1 : endsWithL f1.name ((".py").toList) = true)
    (hpy2 : endsWithL f2.name ((".py").toList) = true)
    (hpy3 : endsWithL f3.name ((".py").toList) = true)
    (hd1 : startsWithL f1.name (("__").toList) = false)
    (hd2 : startsWithL f2.name (("__").toList) = false)
    (hd3 : startsWithL f3.name (("__").toList) = false) :
    scan_games_folder pyParse { folder_exists := true, files := [f1, f2, f3] }
      = ([mkGameInfo f2, mkGameInfo f3], [analyzeErrorMsg f1 e]) := by
  unfold scan_games_folder
  rw [if_neg (by simp)]
  rw [List.foldl_cons, scanStep_err pyParse _ f1 e hpy1 hd1 h1]
  rw [List.foldl_cons, scanStep_ok pyParse _ f2 hpy2 hd2 h2]
  rw [List.foldl_cons, scanStep_ok pyParse _ f3 hpy3 hd3 h3]
  rfl

/-- Witness for claim C7's theorem: a concrete folder with one syntactically
invalid file and two valid games. -/
theorem scan_isolates_bad_file_witness :
    scan_games_folder exParse { folder_exists := true, files := [exBad, exGoodA, exGoodB] }
      = ([mkGameInfo exGoodA, mkGameInfo exGoodB],
         [analyzeErrorMsg exBad (("invalid syntax").toList)]) := by
  exact scan_isolates_bad_file exParse exBad exGoodA exGoodB (("invalid syntax").toList)
    rfl rfl rfl (by decide) (by decide) (by decide)
    (by decide) (by decide) (by decide)

theorem scanTitleComment_none_iff (ls : List (List Char)) :
    scanTitleComment ls = none ↔ ∀ l ∈ ls, ¬titleCommentHit l := by
  induction ls with
  | nil => simp [scanTitleComment]
  | cons l t ih =>
    by_cases hg : (startsWithL (pyStrip l) [('#')]
        && (isSubL (("title").toList) (pyLower (pyStrip l))
            || isSubL (("name").toList) (pyLower (pyStrip l)))) = true
    · by_cases hc : (pyStrip l).contains ':' = true
      · have hscan : scanTitleComment (l :: t) = some (pyStrip (afterFirst ':' (pyStrip l))) := by
          simp only [scanTitleComment]
          rw [if_pos hg, if_pos hc]
        rw [hscan]
        constructor
        · intro h
          simp at h
        · intro hall
          exact absurd ⟨hg, Or.inl hc⟩ (hall l (List.mem_cons_self l t))
      · by_cases hd : (pyStrip l).contains '-' = true
        · have hscan : scanTitleComment (l :: t)
              = some (pyStrip (afterFirst '-' (pyStrip l))) := by
            simp only [scanTitleComment]
            rw [if_pos hg, if_neg hc, if_pos hd]
          rw [hscan]
          constructor
          · intro h
            simp at h
          · intro hall
            exact absurd ⟨hg, Or.inr hd⟩ (hall l (List.mem_cons_self l t))
        · have hscan : scanTitleComment (l :: t) = scanTitleComment t := by
            simp only [scanTitleComment]
            rw [if_pos hg, if_neg hc, if_neg hd]
          have hnl : ¬titleCommentHit l := fun hh => hh.2.elim hc hd
          rw [hscan, ih]
          simp [List.forall_mem_cons, hnl]
    · have hscan : scanTitleComment (l :: t) = scanTitleComment t := by
        simp only [scanTitleComment]
        rw [if_neg hg]
      have hnl : ¬titleCommentHit l := fun hh => hg hh.1
      rw [hscan, ih]
      simp [List.forall_mem_cons, hnl]

/-- Claim C3 (amended): `extract_title` follows this precedence — a comment
among the first 20 lines mentioning title or name with a colon or dash
separator wins; failing that, a TITLE variable assignment yields the text
after the equals sign stripped of whitespace and quotes; failing that, the
filename with underscores as spaces is returned in title case.  The leading
documentation block plays no role. -/
theorem extract_title_precedence (content filename : List Char) :
    (∀ t, scanTitleComment ((pyLines content).take 20) = some t
        → extract_title content filename = t)
    ∧ ((∀ l ∈ (pyLines content).take 20, ¬titleCommentHit l)
        → ∀ t, titleVarL content = some t → extract_title content filename = t)
    ∧ ((∀ l ∈ (pyLines content).take 20, ¬titleCommentHit l)
        → titleVarL content = none
        → extract_title content filename
            = pyTitle (filename.map (fun c => if c = '_' then ' ' else c))) := by
  refine ⟨?_, ?_, ?_⟩
  · intro t h
    unfold extract_title
    rw [h]
  · intro hall t h
    have hnone := (scanTitleComment_none_iff ((pyLines content).take 20)).mpr hall
    unfold extract_title
    rw [hnone, h]
  · intro hall h
    have hnone := (scanTitleComment_none_iff ((pyLines content).take 20)).mpr hall
    unfold extract_title
    rw [hnone, h]

/-- Witness for claim C3's theorem at concrete sources: a title comment wins,
a TITLE variable is used when no comment matches, and a docstring-only file
falls back to the title-cased filename. -/
theorem extract_title_precedence_witness :
    extract_title exGoodA.content (("snake").toList) = ("Snake Deluxe").toList
    ∧ extract_title (("TITLE = \"Neon Blaster\"\n").toList) (("z").toList)
        = ("Neon Blaster").toList
    ∧ extract_title cEx (("cool_game").toList)
        = pyTitle ((("cool_game").toList).map (fun c => if c = '_' then ' ' else c)) := by
  refine ⟨?_, ?_, ?_⟩
  · exact (extract_title_precedence exGoodA.content (("snake").toList)).1
      (("Snake Deluxe").toList) (by decide)
  · exact (extract_title_precedence (("TITLE = \"Neon Blaster\"\n").toList) (("z").toList)).2.1
      (by decide) (("Neon Blaster").toList) (by decide)
  · exact (extract_title_precedence cEx (("cool_game").toList)).2.2 (by decide) (by decide)

/-- Counterexample to claim C3 as stated: on a source whose only title
carrier is its docstring, no title comment matches, the claim's second rule
(first line of the leading documentation block) would give the docstring
text, but the code returns the title-cased filename instead. -/
theorem extract_title_docstring_counterexample :
    scanTitleComment ((pyLines cEx).take 20) = none
    ∧ docBlockFirstLineClaim cEx = some (("My Great Game").toList)
    ∧ extract_title cEx (("cool_game").toList) = ("Cool Game").toList
    ∧ ("Cool Game").toList ≠ ("My Great Game").toList := by
  refine ⟨?_, ?_, ?_, ?_⟩ <;> decide

/-- Claim C2 (confirmed): for a discovered entry whose filename matches an
indexed existing entry, the merged entry is in the merged games list, its
four user-owned fields carry exactly the existing entry's values, and every
other key the discovery produced carries the discovered value. -/
theorem merge_preserves_user_fields
    (discovered existing_games : List Entry) (d e : Entry)
    (hd : d ∈ discovered)
    (he : buildExistingMap existing_games (entryGet d ("file") (GVal.vstr "")) = some e) :
    mergeOne (buildExistingMap existing_games) d ∈ merge_with_config discovered existing_games
    ∧ (∀ k ∈ userOwnedKeys, mergeOne (buildExistingMap existing_games) d k = e k)
    ∧ (∀ k, userOwnedKeys.contains k = false → (d k).isSome →
        mergeOne (buildExistingMap existing_games) d k = d k) := by
  refine ⟨List.mem_map_of_mem _ hd, ?_, ?_⟩
  · intro k hk
    have hne : k ≠ "id" := by
      simp only [userOwnedKeys, List.mem_cons, List.mem_singleton] at hk
      rcases hk with rfl | rfl | rfl | rfl | h
      · decide
      · decide
      · decide
      · decide
      · simp at h
    have hcont : userOwnedKeys.contains k = true := by
      simp only [userOwnedKeys, List.mem_cons, List.mem_singleton] at hk
      rcases hk with rfl | rfl | rfl | rfl | h
      · decide
      · decide
      · decide
      · decide
      · simp at h
    simp only [mergeOne, he, mergeEntry]
    rw [if_neg (fun hcond => by rw [hcont] at hcond; exact absurd hcond.1 (by decide))]
    rw [if_neg (fun hcond => hne hcond.2)]
  · intro k hk hs
    simp only [mergeOne, he, mergeEntry]
    rw [if_pos ⟨hk, hs⟩]

/-- Witness for claim C2's theorem: merging a discovered snake entry into an
existing one keeps the stored playtime 42 and takes the discovered title. -/
theorem merge_preserves_user_fields_witness :
    mergeOne (buildExistingMap [entE]) entD ("playtime") = some (GVal.vint 42)
    ∧ mergeOne (buildExistingMap [entE]) entD ("title") = some (GVal.vstr "Snake Deluxe") := by
  have h := merge_preserves_user_fields [entD] [entE] entD entE
    (List.mem_singleton.mpr rfl) rfl
  constructor
  · exact (h.2.1 ("playtime") (by simp [userOwnedKeys])).trans rfl
  · exact (h.2.2 ("title") (by decide) (by decide)).trans rfl

/-- Claim C6 (confirmed): every merged entry takes its filename from some
discovered entry, so an existing entry whose filename matches no freshly
discovered file contributes no entry to the merged games list. -/
theorem merge_drops_absent_files
    (discovered existing_games : List Entry)
    (hfile : ∀ d ∈ discovered, (d ("file")).isSome) :
    (∀ g ∈ merge_with_config discovered existing_games,
        ∃ d ∈ discovered, g ("file") = d ("file"))
    ∧ ∀ v : GVal, (∀ d ∈ discovered, d ("file") ≠ some v) →
        ∀ g ∈ merge_with_config discovered existing_games, g ("file") ≠ some v := by
  have hmain : ∀ g ∈ merge_with_config discovered existing_games,
      ∃ d ∈ discovered, g ("file") = d ("file") := by
    intro g hg
    rw [merge_with_config] at hg
    obtain ⟨d, hd, rfl⟩ := List.mem_map.mp hg
    refine ⟨d, hd, ?_⟩
    simp only [mergeOne]
    cases hm : buildExistingMap existing_games (entryGet d ("file") (GVal.vstr "")) with
    | none => rfl
    | some e =>
      simp only [mergeEntry]
      rw [if_pos ⟨by decide, hfile d hd⟩]
  refine ⟨hmain, ?_⟩
  intro v hv g hg hcon
  obtain ⟨d, hd, hgd⟩ := hmain g hg
  exact hv d hd (hgd ▸ hcon)

/-- Witness for claim C6's theorem: the merged entry built from the
discovered snake entry does not carry a filename that was never discovered. -/
theorem merge_drops_absent_files_witness :
    mergeOne (buildExistingMap [entE]) entD ("file") ≠ some (GVal.vstr "gone.py") := by
  refine (merge_drops_absent_files [entD] [entE] ?_).2 (GVal.vstr "gone.py") ?_
    (mergeOne (buildExistingMap [entE]) entD) ?_
  · intro d hd
    rw [List.mem_singleton.mp hd]
    decide
  · intro d hd
    rw [List.mem_singleton.mp hd]
    decide
  · rw [merge_with_config]
    exact List.mem_map_of_mem _ (List.mem_singleton.mpr rfl)

theorem take_extend_take {α : Type} (a b : List α) (n : Nat) :
    (if (a.take n).length < n then a.take n ++ b.take (n - (a.take n).length)
     else a.take n).take n = (a ++ b).take n := by
  rcases le_or_lt n a.length with h | h
  · have hlen : (a.take n).length = n := by
      rw [List.length_take]
      omega
    rw [if_neg (by omega)]
    rw [List.take_take, min_self, List.take_append_of_le_length h]
  · have hta : a.take n = a := List.take_of_length_le (le_of_lt h)
    rw [hta]
    rw [if_pos (by omega)]
    simp only [List.take_append_eq_append_take, List.take_take, min_self, hta]

theorem unplayed_filter_eq (stats : List (String × GameStats)) (all_games : List RecGame) :
    all_games.filter (fun g => !memA (stats.map Prod.fst) g.id)
      = all_games.filter (fun g => decide (∀ q ∈ stats, q.1 ≠ g.id)) := by
  apply List.filter_congr
  intro g _
  have hiff : (memA (stats.map Prod.fst) g.id = false) ↔ (∀ q ∈ stats, q.1 ≠ g.id) := by
    rw [memA_eq_false_iff, List.mem_map]
    push_neg
    constructor
    · intro h q hq he
      exact h q hq he
    · intro h q hq he
      exact h q hq he
  cases hb : memA (stats.map Prod.fst) g.id
  · rw [Bool.not_false]
    exact (decide_eq_true (hiff.mp hb)).symm
  · rw [Bool.not_true]
    have hnp : ¬(∀ q ∈ stats, q.1 ≠ g.id) := fun hp => by
      rw [hiff.mpr hp] at hb
      cases hb
    exact (decide_eq_false hnp).symm

/-- Claim C8 (confirmed): with no play history at all the first `limit`
catalog entries are recommended in catalog order; otherwise the result is
exactly the never-played games, those of the favorite category first in
catalog order, then the remaining never-played games in catalog order,
truncated to `limit`. -/
theorem recommendations_unplayed_favorites_first
    (st : StatsData) (all_games : List RecGame) (limit : Nat) :
    (st.game_stats = [] → (get_recommended_games st all_games limit).1 = all_games.take limit)
    ∧ (st.game_stats ≠ [] →
        (get_recommended_games st all_games limit).1
          = (((all_games.filter (fun g => decide (∀ q ∈ st.game_stats, q.1 ≠ g.id))).filter
                (fun g => g.category = some (favoriteCategoryOf st all_games)))
              ++ ((all_games.filter (fun g => decide (∀ q ∈ st.game_stats, q.1 ≠ g.id))).filter
                (fun g => g.category ≠ some (favoriteCategoryOf st all_games)))).take limit) := by
  constructor
  · intro h
    unfold get_recommended_games
    rw [if_pos h]
  · intro h
    unfold get_recommended_games
    rw [if_neg h]
    dsimp only []
    rw [unplayed_filter_eq st.game_stats all_games]
    rw [← take_extend_take]

/-- Witness for claim C8's theorem: with no history the first two catalog
games are recommended; with one played arcade game the recommendation is the
unplayed games, arcade first, cut to two. -/
theorem recommendations_unplayed_favorites_first_witness :
    (get_recommended_games initialStatsData gamesEx 2).1 = gamesEx.take 2
    ∧ (get_recommended_games stP gamesEx 2).1
        = (((gamesEx.filter (fun g => decide (∀ q ∈ stP.game_stats, q.1 ≠ g.id))).filter
              (fun g => g.category = some (favoriteCategoryOf stP gamesEx)))
            ++ ((gamesEx.filter (fun g => decide (∀ q ∈ stP.game_stats, q.1 ≠ g.id))).filter
              (fun g => g.category ≠ some (favoriteCategoryOf stP gamesEx)))).take 2 :=
  ⟨(recommendations_unplayed_favorites_first initialStatsData gamesEx 2).1 rfl,
   (recommendations_unplayed_favorites_first stP gamesEx 2).2 (by decide)⟩
